import Mathlib

/-
Verification of the chat-transcript core of src/main.py (a Streamlit
single-page chat application that relays user text to a hosted
text-completion service).

The embedding models, faithfully to the source:
  - the message dicts stored in st.session_state.messages (Turn, Transcript);
  - the startup credential check (lines 15-24), including the Python
    truthiness test, so an empty-string credential also halts;
  - the per-rerun script body: page header, render loop (lines 58-60),
    and the chat-input handler (lines 66-98), with the external call
    model.generate_content made explicit as a GenResult argument;
  - the operator-facing surface (st.error) and UI effects as an
    explicit effect list, so the transcript and the error surface are
    distinguishable.
Presentation-only pieces (the "---" separators and the sidebar) emit no
modeled effect; they touch no state.
-/

namespace FrontendChatbot

/-- The role tag of a chat message dict: the "role" key, which the source
only ever sets to "user" or "assistant". -/
inductive Role where
  | user
  | assistant
deriving DecidableEq, Repr

/-- One chat message dict: the source appends values of the shape
\x7b"role": r, "content": c\x7d to st.session_state.messages. -/
structure Turn where
  role : Role
  content : String
deriving DecidableEq, Repr

/-- The session transcript: the list st.session_state.messages. -/
abbrev Transcript := List Turn

/-- The seeded greeting text appended at session start (line 53). -/
def GREETING : String :=
  "Hello! I am your Frontend Master. How can I help you create a frontend for your business today?"

/-- The fixed persona instructions constant (lines 33-36). -/
def AGENT_INSTRUCTIONS : String :=
  "You are a helpful frontend developer who assists people in creating their own frontends. Also, provide guidance for different situations and challenges in frontend development."

/-- The fixed fallback assistant text appended when the external call
fails (line 98). -/
def FALLBACK : String := "Sorry, I encountered an error. Please try again."

/-- The page title shown by st.title (line 44). -/
def PAGE_TITLE : String := "White-box, The Ultimate Frontend Master Chatbot"

/-- The operator-visible message shown when the credential is missing
(lines 19-23). -/
def MISSING_KEY_MESSAGE : String :=
  "GEMINI_API_KEY not found in environment variables. Please set it in a `.env` file (for local development) or as a secret in Streamlit Cloud (for deployment)."

/-- The transcript of a fresh session: lines 49-54 seed one assistant
greeting turn into the empty list. -/
def initMessages : Transcript := [⟨Role.assistant, GREETING⟩]

/-- The request payload built at line 75: the f-string combining the
persona constant, the exchange labels and the latest user text. -/
def full_prompt_text (prompt : String) : String :=
  AGENT_INSTRUCTIONS ++ "\n\nUser: " ++ prompt ++ "\nFrontend Master:"

/-- The outcome of the external call model.generate_content followed by
reading response.text (lines 82-85): either the returned text, or an
exception carrying its detail string. -/
inductive GenResult where
  | ok (text : String)
  | error (detail : String)
deriving DecidableEq, Repr

/-- The operator-facing error text built at line 95 from the caught
exception detail. -/
def error_message (e : String) : String :=
  "An error occurred while fetching a response: " ++ e

/-- Observable UI and operator-surface effects of one script run. -/
inductive Effect where
  | setPageConfig
  | title (text : String)
  | chatMessage (role : Role) (content : String)
  | stError (msg : String)
  | stStop
deriving DecidableEq, Repr

/-- Result of one chat-input handler invocation: the new transcript, the
payload sent to the external call, and the emitted effects. -/
structure HandlerOutput where
  messages : Transcript
  payload : String
  effects : List Effect
deriving DecidableEq, Repr

/-- Messages shown on the operator-facing error surface (st.error calls)
during one handler invocation. -/
def HandlerOutput.operatorErrors (o : HandlerOutput) : List String :=
  o.effects.filterMap fun e =>
    match e with
    | Effect.stError m => some m
    | _ => none

/-- The chat-input handler body (lines 66-98): append the user turn,
build the payload, invoke the external call, then append either the
returned text or the fixed fallback; on failure the exception detail
goes to st.error only. -/
def handle_user_message (messages : Transcript) (prompt : String)
    (result : GenResult) : HandlerOutput :=
  let messages1 := messages ++ [⟨Role.user, prompt⟩]
  let userEff : List Effect := [Effect.chatMessage Role.user prompt]
  let fp := full_prompt_text prompt
  match result with
  | GenResult.ok t =>
      ⟨messages1 ++ [⟨Role.assistant, t⟩], fp,
        userEff ++ [Effect.chatMessage Role.assistant t]⟩
  | GenResult.error e =>
      ⟨messages1 ++ [⟨Role.assistant, FALLBACK⟩], fp,
        userEff ++ [Effect.stError (error_message e)]⟩

/-- A whole session: fold the handler over a sequence of submitted
messages, each paired with the external-call outcome it received,
starting from the seeded transcript. -/
def processMessages (inputs : List (String × GenResult)) : Transcript :=
  inputs.foldl (fun m i => (handle_user_message m i.1 i.2).messages) initMessages

/-- The startup credential check (lines 15-24): st.error plus st.stop
when os.getenv returned None, or an empty string (Python truthiness of
`if not gemini_api_key`). Returns the emitted effects and whether the
script halted. -/
def startupCheck (gemini_api_key : Option String) : List Effect × Bool :=
  match gemini_api_key with
  | none => ([Effect.stError MISSING_KEY_MESSAGE, Effect.stStop], true)
  | some k =>
      if k = "" then ([Effect.stError MISSING_KEY_MESSAGE, Effect.stStop], true)
      else ([], false)

/-- The render loop (lines 58-60): one chat-message effect per stored
turn, in order; the transcript itself is not touched. -/
def renderEffects (msgs : Transcript) : List Effect :=
  msgs.map fun m => Effect.chatMessage m.role m.content

/-- Outcome of one top-to-bottom run of the script. -/
structure RunResult where
  effects : List Effect
  halted : Bool
  sessionOut : Option Transcript
deriving DecidableEq, Repr

/-- One top-to-bottom rerun of main.py with its external inputs made
explicit: the credential from the environment, the prior session state
(none on a fresh session, matching the `"messages" not in
st.session_state` test at line 49), and the chat-input submission for
this rerun, paired with the external-call outcome. A falsy (empty)
submission skips the handler, as the walrus test at line 66 does. -/
def runScript (key : Option String) (session : Option Transcript)
    (input : Option (String × GenResult)) : RunResult :=
  let checked := startupCheck key
  if checked.2 then ⟨checked.1, true, session⟩
  else
    let messages := match session with
      | none => initMessages
      | some m => m
    let headerEffs := [Effect.setPageConfig, Effect.title PAGE_TITLE]
    let renderEffs := renderEffects messages
    match input with
    | none => ⟨checked.1 ++ headerEffs ++ renderEffs, false, some messages⟩
    | some (prompt, r) =>
        if prompt = "" then ⟨checked.1 ++ headerEffs ++ renderEffs, false, some messages⟩
        else
          let out := handle_user_message messages prompt r
          ⟨checked.1 ++ headerEffs ++ renderEffs ++ out.effects, false,
            some out.messages⟩

/-- The assistant text a handler invocation appends: the returned text on
success, the fixed fallback on failure. -/
def replyText : GenResult → String
  | GenResult.ok t => t
  | GenResult.error _ => FALLBACK

/-- The pair of turns one handler invocation appends, for each input. -/
def turnsFor (inputs : List (String × GenResult)) : Transcript :=
  match inputs with
  | [] => []
  | i :: rest => ⟨Role.user, i.1⟩ :: ⟨Role.assistant, replyText i.2⟩ :: turnsFor rest

lemma handle_messages_eq (msgs : Transcript) (prompt : String) (r : GenResult) :
    (handle_user_message msgs prompt r).messages =
      msgs ++ [⟨Role.user, prompt⟩, ⟨Role.assistant, replyText r⟩] := by
  cases r <;> simp [handle_user_message, replyText]

lemma foldl_handle_eq (msgs : Transcript) (inputs : List (String × GenResult)) :
    inputs.foldl (fun m i => (handle_user_message m i.1 i.2).messages) msgs =
      msgs ++ turnsFor inputs := by
  induction inputs generalizing msgs with
  | nil => simp [turnsFor]
  | cons hd tl ih =>
      rw [List.foldl_cons, handle_messages_eq, ih]
      simp [turnsFor]

lemma processMessages_eq (inputs : List (String × GenResult)) :
    processMessages inputs = initMessages ++ turnsFor inputs := by
  simp [processMessages, foldl_handle_eq]

lemma turnsFor_length (inputs : List (String × GenResult)) :
    (turnsFor inputs).length = 2 * inputs.length := by
  induction inputs with
  | nil => simp [turnsFor]
  | cons hd tl ih => simp [turnsFor, ih]; omega

lemma turnsFor_append (a b : List (String × GenResult)) :
    turnsFor (a ++ b) = turnsFor a ++ turnsFor b := by
  induction a with
  | nil => simp [turnsFor]
  | cons hd tl ih => simp [turnsFor, ih]

/-- The role pattern of a transcript after n handled messages: n repeats
of user then assistant. -/
def rolesPattern : Nat → List Role
  | 0 => []
  | n + 1 => Role.user :: Role.assistant :: rolesPattern n

lemma turnsFor_roles (inputs : List (String × GenResult)) :
    (turnsFor inputs).map Turn.role = rolesPattern inputs.length := by
  induction inputs with
  | nil => simp [turnsFor, rolesPattern]
  | cons hd tl ih => simp [turnsFor, rolesPattern, ih]

/-- C1: after processing any sequence of N submitted messages, the
transcript holds 1 + 2N turns, and each single handler invocation grows
the transcript by exactly two turns (one user, one assistant). -/
theorem transcript_length_law (inputs : List (String × GenResult)) :
    (processMessages inputs).length = 1 + 2 * inputs.length ∧
    ∀ (msgs : Transcript) (prompt : String) (r : GenResult),
      (handle_user_message msgs prompt r).messages.length = msgs.length + 2 := by
  constructor
  · rw [processMessages_eq]
    simp [initMessages, turnsFor_length]
    omega
  · intro msgs prompt r
    rw [handle_messages_eq]
    simp

/-- C2: when the external call raises with detail e, the handler appends
the user turn and an assistant turn whose content is exactly the fixed
fallback string (the right-hand side does not mention e, so the
transcript is independent of the exception detail), while the detail is
shown only on the operator-facing error surface. -/
theorem failure_appends_fallback (msgs : Transcript) (prompt : String) (e : String) :
    (handle_user_message msgs prompt (GenResult.error e)).messages =
      msgs ++ [⟨Role.user, prompt⟩, ⟨Role.assistant, FALLBACK⟩] ∧
    (handle_user_message msgs prompt (GenResult.error e)).operatorErrors =
      [error_message e] := by
  constructor
  · simp [handle_user_message]
  · simp [handle_user_message, HandlerOutput.operatorErrors]

/-- C3: when the external call returns text t, the appended assistant
turn carries t verbatim, with no truncation or transformation. -/
theorem success_reply_verbatim (msgs : Transcript) (prompt t : String) :
    (handle_user_message msgs prompt (GenResult.ok t)).messages =
      msgs ++ [⟨Role.user, prompt⟩, ⟨Role.assistant, t⟩] := by
  simp [handle_user_message]

/-- C4: for every prior transcript, the payload sent to the external
call is exactly the persona constant, the exchange labels and the latest
user text concatenated; the right-hand side mentions no turn of the
prior transcript, which is not resent. -/
theorem payload_is_persona_and_latest_only (msgs : Transcript) (prompt : String)
    (r : GenResult) :
    (handle_user_message msgs prompt r).payload =
      AGENT_INSTRUCTIONS ++ "\n\nUser: " ++ prompt ++ "\nFrontend Master:" := by
  cases r <;> rfl

/-- C5: the transcript is append-only: every handler invocation leaves
the prior transcript as an unchanged initial segment and only adds turns
after it, and the same holds across whole sequences of invocations, so
turns stay in invocation order. -/
theorem transcript_append_only :
    (∀ (msgs : Transcript) (prompt : String) (r : GenResult),
      ∃ appended, (handle_user_message msgs prompt r).messages = msgs ++ appended) ∧
    (∀ inputs more : List (String × GenResult),
      ∃ appended, processMessages (inputs ++ more) = processMessages inputs ++ appended) := by
  constructor
  · intro msgs prompt r
    exact ⟨_, handle_messages_eq msgs prompt r⟩
  · intro inputs more
    refine ⟨turnsFor more, ?_⟩
    rw [processMessages_eq, processMessages_eq, turnsFor_append, List.append_assoc]

/-- C6: with the credential absent the script halts, emitting only the
operator-visible error and the stop, never a UI effect; with any
non-empty credential present no run halts, whatever the session state,
the submission, or the external-call outcome: the missing credential is
the only unrecoverable path. -/
theorem missing_key_fatal (session : Option Transcript)
    (input : Option (String × GenResult)) :
    ((runScript none session input).halted = true ∧
      (runScript none session input).effects =
        [Effect.stError MISSING_KEY_MESSAGE, Effect.stStop]) ∧
    (∀ k : String, k ≠ "" → (runScript (some k) session input).halted = false) := by
  constructor
  · constructor <;> rfl
  · intro k hk
    cases input with
    | none => simp [runScript, startupCheck, hk]
    | some pr =>
        rcases pr with ⟨prompt, r⟩
        by_cases hp : prompt = "" <;> simp [runScript, startupCheck, hk, hp]

/-- Witness for C6 at concrete inputs. -/
theorem missing_key_fatal_witness :
    (runScript none none none).halted = true ∧
    (runScript (some "demo-key") none none).halted = false :=
  ⟨(missing_key_fatal none none).1.1,
    (missing_key_fatal none none).2 "demo-key" (by decide)⟩

/-- C7: a fresh session with a valid credential and no submission ends
with exactly the one seeded assistant greeting turn, and the render pass
shows exactly that one chat message. -/
theorem fresh_session_seed (k : String) (h : k ≠ "") :
    (runScript (some k) none none).sessionOut = some [⟨Role.assistant, GREETING⟩] ∧
    (runScript (some k) none none).effects =
      [Effect.setPageConfig, Effect.title PAGE_TITLE,
        Effect.chatMessage Role.assistant GREETING] := by
  constructor <;> simp [runScript, startupCheck, h, initMessages, renderEffects]

/-- Witness for C7 at a concrete credential. -/
theorem fresh_session_seed_witness :
    (runScript (some "demo-key") none none).sessionOut =
      some [⟨Role.assistant, GREETING⟩] :=
  (fresh_session_seed "demo-key" (by decide)).1

/-- C8: a rerun that only reads the transcript (no submission) leaves it
unchanged, and a second such read, fed the session the first one
produced, yields an identical run: identical effects, identical
transcript. -/
theorem transcript_read_idempotent (k : String) (msgs : Transcript) (h : k ≠ "") :
    (runScript (some k) (some msgs) none).sessionOut = some msgs ∧
    runScript (some k) ((runScript (some k) (some msgs) none).sessionOut) none =
      runScript (some k) (some msgs) none := by
  constructor <;> simp [runScript, startupCheck, h]

/-- Witness for C8 at concrete inputs. -/
theorem transcript_read_idempotent_witness :
    (runScript (some "demo-key") (some [⟨Role.user, "hi"⟩]) none).sessionOut =
      some [⟨Role.user, "hi"⟩] :=
  (transcript_read_idempotent "demo-key" [⟨Role.user, "hi"⟩] (by decide)).1

/-- C9: after any handled sequence the transcript roles are exactly the
seeded assistant followed by user, assistant repeated once per handled
message; in particular every role is user or assistant and the roles
strictly alternate. -/
theorem roles_alternate (inputs : List (String × GenResult)) :
    (processMessages inputs).map Turn.role =
      Role.assistant :: rolesPattern inputs.length := by
  rw [processMessages_eq]
  simp [initMessages, turnsFor_roles]

/-- C10: the outbound payload does not depend on the prior transcript
nor on the external-call outcome: handling the same user text from any
two session states produces identical payloads. -/
theorem payload_independent_of_transcript (prompt : String)
    (msgs1 msgs2 : Transcript) (r1 r2 : GenResult) :
    (handle_user_message msgs1 prompt r1).payload =
      (handle_user_message msgs2 prompt r2).payload := by
  cases r1 <;> cases r2 <;> rfl

end FrontendChatbot
